import Mathlib

/-!
Verification of `source/kernel/config.h` (standalone-linux-io-tracer).

The header is a compatibility layer: preprocessor conditionals pick, from the
kernel version, the accessors for `struct bio` and the way the block-layer
tracepoints are registered.  The development below embeds

* the preprocessor conditionals as functions of the build configuration,
* the accessor bodies as functions of a `bio`,
* the four inline register / unregister functions as state-passing functions
  over a small model of the kernel tracepoint table.
-/

namespace IoTracer

/-! ## Build configuration and preprocessor conditionals -/

/-- Kernel header `linux/version.h`: `KERNEL_VERSION(a, b, c)` is
`(a << 16) + (b << 8) + c`. -/
def KERNEL_VERSION (a b c : Nat) : Nat :=
  a * 65536 + b * 256 + c

/-- The preprocessor symbols the header inspects.  `LINUX_VERSION_CODE` is
always defined; `RHEL_MAJOR` and `RHEL_MINOR` are defined on vendor kernels
only (`none` stands for "not defined"). -/
structure Config where
  LINUX_VERSION_CODE : Nat
  RHEL_MAJOR : Option Nat
  RHEL_MINOR : Option Nat
deriving DecidableEq, Repr

/-- The two conditional blocks of lines 46-191. -/
inductive Profile where
  /-- Block of line 46, "Defines for CentOS 7.6 (3.10 kernel)". -/
  | legacy
  /-- Block of line 113, "Defines for Ubuntu 18.04 (4.15 kernel)". -/
  | modern
deriving DecidableEq, Repr

/-- Lines 46, 113, 191: `#if LINUX_VERSION_CODE < KERNEL_VERSION(4, 14, 0)`
/ `#elif LINUX_VERSION_CODE >= KERNEL_VERSION(4, 14, 0)` / `#endif`.
There is no `#else`: `none` is the textual fall-through in which neither
block is compiled. -/
def resolve (v : Nat) : Option Profile :=
  if v < KERNEL_VERSION 4 14 0 then some Profile.legacy
  else if v ≥ KERNEL_VERSION 4 14 0 then some Profile.modern
  else none

/-- Which structure member `IOTRACE_BIO_OP_FLAGS` expands to. -/
inductive OpFlagsVariant where
  | bi_rw
  | bi_opf
deriving DecidableEq, Repr

/-- Which expression `IOTRACE_BIO_IS_DISCARD` expands to. -/
inductive DiscardVariant where
  | op_flags_and_REQ_DISCARD
  | bio_op_eq_REQ_OP_DISCARD
deriving DecidableEq, Repr

/-- Which structure member `IOTRACE_BIO_BISIZE` expands to. -/
inductive SizeVariant where
  | bi_size
  | bi_iter_bi_size
deriving DecidableEq, Repr

/-- Which structure member `IOTRACE_BIO_BISECTOR` expands to. -/
inductive SectorVariant where
  | bi_sector
  | bi_iter_bi_sector
deriving DecidableEq, Repr

/-- Which mask `IOTRACE_BIO_IS_FLUSH` tests the op-flags word against. -/
inductive FlushVariant where
  | op_flags_and_REQ_FLUSH
  | op_flags_and_REQ_OP_FLUSH
deriving DecidableEq, Repr

/-- How the register / unregister functions reach the tracepoints. -/
inductive RegistrationVariant where
  /-- Lines 57-108: the statically linked `register_trace_*` functions. -/
  | static_tracepoint
  /-- Lines 124-189: `kallsyms_lookup_name` followed by
  `tracepoint_probe_register`. -/
  | symbol_lookup
deriving DecidableEq, Repr

/-- Everything one of the two conditional blocks defines. -/
structure ProfileAccessors where
  IOTRACE_BIO_OP_FLAGS : OpFlagsVariant
  IOTRACE_BIO_IS_DISCARD : DiscardVariant
  IOTRACE_BIO_BISIZE : SizeVariant
  IOTRACE_BIO_BISECTOR : SectorVariant
  IOTRACE_BIO_IS_FLUSH : FlushVariant
  registration : RegistrationVariant
deriving DecidableEq, Repr

/-- Lines 48-108 for the legacy block, lines 115-189 for the modern one. -/
def Profile.accessors : Profile → ProfileAccessors
  | Profile.legacy =>
      { IOTRACE_BIO_OP_FLAGS := OpFlagsVariant.bi_rw
        IOTRACE_BIO_IS_DISCARD := DiscardVariant.op_flags_and_REQ_DISCARD
        IOTRACE_BIO_BISIZE := SizeVariant.bi_size
        IOTRACE_BIO_BISECTOR := SectorVariant.bi_sector
        IOTRACE_BIO_IS_FLUSH := FlushVariant.op_flags_and_REQ_FLUSH
        registration := RegistrationVariant.static_tracepoint }
  | Profile.modern =>
      { IOTRACE_BIO_OP_FLAGS := OpFlagsVariant.bi_opf
        IOTRACE_BIO_IS_DISCARD := DiscardVariant.bio_op_eq_REQ_OP_DISCARD
        IOTRACE_BIO_BISIZE := SizeVariant.bi_iter_bi_size
        IOTRACE_BIO_BISECTOR := SectorVariant.bi_iter_bi_sector
        IOTRACE_BIO_IS_FLUSH := FlushVariant.op_flags_and_REQ_OP_FLUSH
        registration := RegistrationVariant.symbol_lookup }

/-- Lines 196-200: `IOTRACE_FSNOTIFY_VERSION_5` is defined when both RHEL
symbols are defined and `RHEL_MAJOR == 7 && RHEL_MINOR >= 7`. -/
def IOTRACE_FSNOTIFY_VERSION_5 (c : Config) : Bool :=
  match c.RHEL_MAJOR, c.RHEL_MINOR with
  | some major, some minor => major == 7 && decide (minor ≥ 7)
  | _, _ => false

/-- The three expansions of `IOTRACE_FSNOTIFY_ADD_MARK`. -/
inductive AddMarkVariant where
  /-- Line 205: `add_mark(mark, inode, NULL, 0)`. -/
  | mark_inode_NULL_0
  /-- Lines 209-210: `add_mark(mark, &inode->i_fsnotify_marks,
  FSNOTIFY_OBJ_TYPE_INODE, 0)`. -/
  | mark_marks_type_0
  /-- Lines 214-215: the same call with a trailing `NULL`. -/
  | mark_marks_type_0_NULL
deriving DecidableEq, Repr

/-- Lines 202-217. -/
def IOTRACE_FSNOTIFY_ADD_MARK (c : Config) : AddMarkVariant :=
  if c.LINUX_VERSION_CODE < KERNEL_VERSION 4 18 0 ∧ IOTRACE_FSNOTIFY_VERSION_5 c = false then
    AddMarkVariant.mark_inode_NULL_0
  else if c.LINUX_VERSION_CODE < KERNEL_VERSION 5 1 0 then
    AddMarkVariant.mark_marks_type_0
  else
    AddMarkVariant.mark_marks_type_0_NULL

/-- The two expansions of `IOTRACE_GET_WRITE_HINT`. -/
inductive WriteHintVariant where
  /-- Line 220: `(bio->bi_write_hint)`. -/
  | bi_write_hint
  /-- Line 222: `(0)`. -/
  | zero
deriving DecidableEq, Repr

/-- Lines 219-223. -/
def IOTRACE_GET_WRITE_HINT (c : Config) : WriteHintVariant :=
  if c.LINUX_VERSION_CODE ≥ KERNEL_VERSION 4 13 0 then WriteHintVariant.bi_write_hint
  else WriteHintVariant.zero

/-- The two expansions of `IOTRACE_ACCESS_OK`. -/
inductive AccessOkVariant where
  /-- Line 228: `access_ok(addr, size)`. -/
  | addr_size
  /-- Line 230: `access_ok(type, addr, size)`. -/
  | type_addr_size
deriving DecidableEq, Repr

/-- Lines 226-231.  In a preprocessor condition `defined(RHEL_MAJOR) &&
RHEL_MAJOR >= 8` is false when the symbol is not defined. -/
def IOTRACE_ACCESS_OK (c : Config) : AccessOkVariant :=
  if decide (c.LINUX_VERSION_CODE ≥ KERNEL_VERSION 5 0 0) ||
      (match c.RHEL_MAJOR with
       | some major => decide (major ≥ 8)
       | none => false) then
    AccessOkVariant.addr_size
  else
    AccessOkVariant.type_addr_size

/-- The two definitions of the type `iotrace_vm_fault_t`. -/
inductive VmFaultVariant where
  /-- Line 235: `typedef vm_fault_t iotrace_vm_fault_t`. -/
  | vm_fault_t
  /-- Line 237: `typedef int iotrace_vm_fault_t`. -/
  | int
deriving DecidableEq, Repr

/-- Lines 234-238. -/
def iotrace_vm_fault_t (c : Config) : VmFaultVariant :=
  if c.LINUX_VERSION_CODE ≥ KERNEL_VERSION 4 17 0 then VmFaultVariant.vm_fault_t
  else VmFaultVariant.int

/-- The two expansions of `IOTRACE_LOOKUP_BDEV`. -/
inductive LookupBdevVariant where
  /-- Lines 242 and 246: `lookup_bdev(path)`. -/
  | path
  /-- Line 244: `lookup_bdev(path, 0)`. -/
  | path_0
deriving DecidableEq, Repr

/-- Lines 241-247. -/
def IOTRACE_LOOKUP_BDEV (c : Config) : LookupBdevVariant :=
  if c.LINUX_VERSION_CODE < KERNEL_VERSION 4 15 0 then LookupBdevVariant.path
  else if c.LINUX_VERSION_CODE < KERNEL_VERSION 4 16 0 then LookupBdevVariant.path_0
  else LookupBdevVariant.path

/-- Every accessor the header defines for a configuration: the block chosen
by lines 46 / 113 (absent when neither condition holds) and the five
accessors of lines 193-247. -/
structure Header where
  block : Option ProfileAccessors
  IOTRACE_FSNOTIFY_ADD_MARK : AddMarkVariant
  IOTRACE_GET_WRITE_HINT : WriteHintVariant
  IOTRACE_ACCESS_OK : AccessOkVariant
  iotrace_vm_fault_t : VmFaultVariant
  IOTRACE_LOOKUP_BDEV : LookupBdevVariant
deriving DecidableEq, Repr

/-- The header as a whole, preprocessed under configuration `c`. -/
def config_h (c : Config) : Header :=
  { block := (resolve c.LINUX_VERSION_CODE).map Profile.accessors
    IOTRACE_FSNOTIFY_ADD_MARK := IOTRACE_FSNOTIFY_ADD_MARK c
    IOTRACE_GET_WRITE_HINT := IOTRACE_GET_WRITE_HINT c
    IOTRACE_ACCESS_OK := IOTRACE_ACCESS_OK c
    iotrace_vm_fault_t := iotrace_vm_fault_t c
    IOTRACE_LOOKUP_BDEV := IOTRACE_LOOKUP_BDEV c }

/-! ## Accessors of the legacy block (lines 36-55) -/

namespace Legacy

/-- The members of the 3.10 `struct bio` the accessors read. -/
structure bio where
  bi_sector : Nat
  bi_rw : Nat
  bi_size : Nat
deriving DecidableEq, Repr

/-- Request flag masks of `linux/blk_types.h` the legacy accessors use.  Their
bit positions belong to the kernel, not to this header. -/
structure blk_types where
  REQ_DISCARD : Nat
  REQ_FUA : Nat
  REQ_FLUSH : Nat
deriving DecidableEq, Repr

/-- The masks of kernel 3.10: `__REQ_DISCARD = 7`, `__REQ_FUA = 11`,
`__REQ_FLUSH = 12`. -/
def linux_3_10 : blk_types :=
  { REQ_DISCARD := 2 ^ 7, REQ_FUA := 2 ^ 11, REQ_FLUSH := 2 ^ 12 }

/-- Kernel header `linux/fs.h`: `#define WRITE RW_MASK`, the bit
`REQ_WRITE = 1 << 0`. -/
def WRITE : Nat := 1

/-- Kernel header `linux/fs.h` (3.10):
`#define bio_data_dir(bio) ((bio)->bi_rw & 1)`. -/
def bio_data_dir (b : bio) : Nat :=
  b.bi_rw &&& 1

/-- Line 48: `#define IOTRACE_BIO_OP_FLAGS(bio) (bio)->bi_rw`. -/
def IOTRACE_BIO_OP_FLAGS (b : bio) : Nat :=
  b.bi_rw

/-- Line 37: `(bio_data_dir(bio) == WRITE)`. -/
def IOTRACE_BIO_IS_WRITE (b : bio) : Bool :=
  bio_data_dir b == WRITE

/-- Line 39: `((IOTRACE_BIO_OP_FLAGS(bio)) & REQ_FUA)`. -/
def IOTRACE_BIO_IS_FUA (K : blk_types) (b : bio) : Nat :=
  IOTRACE_BIO_OP_FLAGS b &&& K.REQ_FUA

/-- Line 50: `((IOTRACE_BIO_OP_FLAGS(bio)) & REQ_DISCARD)`. -/
def IOTRACE_BIO_IS_DISCARD (K : blk_types) (b : bio) : Nat :=
  IOTRACE_BIO_OP_FLAGS b &&& K.REQ_DISCARD

/-- Line 52: `(bio)->bi_size`. -/
def IOTRACE_BIO_BISIZE (b : bio) : Nat :=
  b.bi_size

/-- Line 53: `(bio)->bi_sector`. -/
def IOTRACE_BIO_BISECTOR (b : bio) : Nat :=
  b.bi_sector

/-- Line 55: `((IOTRACE_BIO_OP_FLAGS(bio)) & REQ_FLUSH)`. -/
def IOTRACE_BIO_IS_FLUSH (K : blk_types) (b : bio) : Nat :=
  IOTRACE_BIO_OP_FLAGS b &&& K.REQ_FLUSH

end Legacy

/-! ## Accessors of the modern block (lines 36-39, 115-122) -/

namespace Modern

/-- The `bi_iter` member of the 4.15 `struct bio`. -/
structure bvec_iter where
  bi_sector : Nat
  bi_size : Nat
deriving DecidableEq, Repr

/-- The members of the 4.15 `struct bio` the accessors read. -/
structure bio where
  bi_opf : Nat
  bi_write_hint : Nat
  bi_iter : bvec_iter
deriving DecidableEq, Repr

/-- Request flag masks of `linux/blk_types.h` for the modern block.  They lie
above the operation bits; their exact positions belong to the kernel. -/
structure blk_types where
  REQ_FUA : Nat
  REQ_PREFLUSH : Nat
deriving DecidableEq, Repr

/-- The masks of kernel 4.15: `__REQ_FUA = 17`, `__REQ_PREFLUSH = 18`. -/
def linux_4_15 : blk_types :=
  { REQ_FUA := 2 ^ 17, REQ_PREFLUSH := 2 ^ 18 }

/-- Kernel header `linux/blk_types.h`: `#define REQ_OP_BITS 8`. -/
def REQ_OP_BITS : Nat := 8

/-- Kernel header `linux/blk_types.h`:
`#define REQ_OP_MASK ((1 << REQ_OP_BITS) - 1)`. -/
def REQ_OP_MASK : Nat := 2 ^ REQ_OP_BITS - 1

/-- Kernel header `linux/blk_types.h`, `enum req_opf`. -/
def REQ_OP_READ : Nat := 0

/-- Kernel header `linux/blk_types.h`, `enum req_opf`. -/
def REQ_OP_WRITE : Nat := 1

/-- Kernel header `linux/blk_types.h`, `enum req_opf`. -/
def REQ_OP_FLUSH : Nat := 2

/-- Kernel header `linux/blk_types.h`, `enum req_opf`. -/
def REQ_OP_DISCARD : Nat := 3

/-- Kernel header `linux/fs.h`: `#define READ 0`. -/
def READ : Nat := 0

/-- Kernel header `linux/fs.h`: `#define WRITE 1`. -/
def WRITE : Nat := 1

/-- Kernel header `linux/blk_types.h`:
`#define bio_op(bio) ((bio)->bi_opf & REQ_OP_MASK)`. -/
def bio_op (b : bio) : Nat :=
  b.bi_opf &&& REQ_OP_MASK

/-- Kernel header `linux/blk_types.h`: `op_is_write(op)` is `(op & 1)`. -/
def op_is_write (op : Nat) : Bool :=
  op &&& 1 != 0

/-- Kernel header `linux/bio.h` (4.15):
`#define bio_data_dir(bio) (op_is_write(bio_op(bio)) ? WRITE : READ)`. -/
def bio_data_dir (b : bio) : Nat :=
  if op_is_write (bio_op b) then WRITE else READ

/-- Line 115: `#define IOTRACE_BIO_OP_FLAGS(bio) (bio)->bi_opf`. -/
def IOTRACE_BIO_OP_FLAGS (b : bio) : Nat :=
  b.bi_opf

/-- Line 37: `(bio_data_dir(bio) == WRITE)`. -/
def IOTRACE_BIO_IS_WRITE (b : bio) : Bool :=
  bio_data_dir b == WRITE

/-- Line 39: `((IOTRACE_BIO_OP_FLAGS(bio)) & REQ_FUA)`. -/
def IOTRACE_BIO_IS_FUA (K : blk_types) (b : bio) : Nat :=
  IOTRACE_BIO_OP_FLAGS b &&& K.REQ_FUA

/-- Line 117: `(bio_op(bio) == REQ_OP_DISCARD)`. -/
def IOTRACE_BIO_IS_DISCARD (b : bio) : Bool :=
  bio_op b == REQ_OP_DISCARD

/-- Line 119: `(bio)->bi_iter.bi_size`. -/
def IOTRACE_BIO_BISIZE (b : bio) : Nat :=
  b.bi_iter.bi_size

/-- Line 120: `(bio)->bi_iter.bi_sector`. -/
def IOTRACE_BIO_BISECTOR (b : bio) : Nat :=
  b.bi_iter.bi_sector

/-- Line 122: `((IOTRACE_BIO_OP_FLAGS(bio)) & REQ_OP_FLUSH)`. -/
def IOTRACE_BIO_IS_FLUSH (b : bio) : Nat :=
  IOTRACE_BIO_OP_FLAGS b &&& REQ_OP_FLUSH

/-- A write carrying the flush and the FUA flag:
`REQ_OP_WRITE | REQ_PREFLUSH | REQ_FUA`. -/
def write_preflush_fua (K : blk_types) : bio :=
  { bi_opf := REQ_OP_WRITE ||| K.REQ_PREFLUSH ||| K.REQ_FUA
    bi_write_hint := 0
    bi_iter := { bi_sector := 100, bi_size := 4096 } }

/-- A plain discard: operation `REQ_OP_DISCARD`, no flag set. -/
def plain_discard : bio :=
  { bi_opf := REQ_OP_DISCARD
    bi_write_hint := 0
    bi_iter := { bi_sector := 100, bi_size := 4096 } }

end Modern

/-! ## Kernel tracepoint table

The register / unregister functions of the header only call kernel functions.
The kernel side is modelled as a table of attached probes, the sequence of
kernel calls made so far, and the number of `WARN_ON` reports.  What each
kernel call returns is given by the environment. -/

/-- Pointers are addresses; `NULL` is `0`. -/
abbrev Addr := Nat

/-- The null pointer. -/
def NULL : Addr := 0

/-- One attached probe: the tracepoint descriptor it hangs on, the callback
and the callback data. -/
structure Probe where
  tracepoint : Addr
  fn : Addr
  data : Addr
deriving DecidableEq, Repr

/-- The kernel functions the header calls, with their arguments. -/
inductive Call where
  | kallsyms_lookup_name (name : String)
  | register_trace_block_bio_queue (fn data : Addr)
  | unregister_trace_block_bio_queue (fn data : Addr)
  | register_trace_block_bio_complete (fn data : Addr)
  | unregister_trace_block_bio_complete (fn data : Addr)
  | register_trace_block_rq_complete (fn data : Addr)
  | unregister_trace_block_rq_complete (fn data : Addr)
  | tracepoint_probe_register (tp fn data : Addr)
  | tracepoint_probe_unregister (tp fn data : Addr)
deriving DecidableEq, Repr

/-- What the kernel looks like from the header: the symbol table behind
`kallsyms_lookup_name` (`0` for a name it does not know), the addresses of
the statically linked tracepoint descriptors, the address of the callback
`iotrace_block_rq_complete` declared on lines 67 / 140, and the status every
registration or unregistration call returns. -/
structure Env where
  kallsyms : String → Addr
  __tracepoint_block_bio_queue : Addr
  __tracepoint_block_bio_complete : Addr
  __tracepoint_block_rq_complete : Addr
  iotrace_block_rq_complete : Addr
  status : Call → Int

/-- Mutable kernel state. -/
structure Kernel where
  probes : List Probe
  calls : List Call
  warnings : Nat
deriving DecidableEq, Repr

/-- A kernel with no probe attached and no call made. -/
def Kernel.boot : Kernel :=
  { probes := [], calls := [], warnings := 0 }

/-- Whether probe `p` is attached. -/
def Kernel.registered (k : Kernel) (p : Probe) : Bool :=
  decide (p ∈ k.probes)

/-- How often `kallsyms_lookup_name(name)` has been called. -/
def Kernel.lookups (k : Kernel) (name : String) : Nat :=
  k.calls.count (Call.kallsyms_lookup_name name)

/-- A registration call `c` for probe `p`: it is recorded, returns the status
the environment gives it, and attaches the probe exactly when that status
is `0`. -/
def Kernel.attach (env : Env) (c : Call) (p : Probe) (k : Kernel) : Int × Kernel :=
  (env.status c,
   { probes := if env.status c = 0 then p :: k.probes else k.probes
     calls := k.calls ++ [c]
     warnings := k.warnings })

/-- An unregistration call `c` for probe `p`: it is recorded, returns the
status the environment gives it, and detaches the probe exactly when that
status is `0`. -/
def Kernel.detach (env : Env) (c : Call) (p : Probe) (k : Kernel) : Int × Kernel :=
  (env.status c,
   { probes := if env.status c = 0 then k.probes.erase p else k.probes
     calls := k.calls ++ [c]
     warnings := k.warnings })

/-- Kernel function `kallsyms_lookup_name`: the call is recorded and the
address of the symbol returned. -/
def kallsyms_lookup_name (env : Env) (name : String) (k : Kernel) : Addr × Kernel :=
  (env.kallsyms name, { k with calls := k.calls ++ [Call.kallsyms_lookup_name name] })

/-- Kernel function `tracepoint_probe_register(tp, probe, data)`. -/
def tracepoint_probe_register (env : Env) (tp fn data : Addr) (k : Kernel) : Int × Kernel :=
  k.attach env (Call.tracepoint_probe_register tp fn data) ⟨tp, fn, data⟩

/-- Kernel function `tracepoint_probe_unregister(tp, probe, data)`. -/
def tracepoint_probe_unregister (env : Env) (tp fn data : Addr) (k : Kernel) : Int × Kernel :=
  k.detach env (Call.tracepoint_probe_unregister tp fn data) ⟨tp, fn, data⟩

/-- Kernel function `register_trace_block_bio_queue(fn, data)`, generated by
`DECLARE_TRACE` for the descriptor `__tracepoint_block_bio_queue`. -/
def register_trace_block_bio_queue (env : Env) (fn data : Addr) (k : Kernel) : Int × Kernel :=
  k.attach env (Call.register_trace_block_bio_queue fn data)
    ⟨env.__tracepoint_block_bio_queue, fn, data⟩

/-- Kernel function `unregister_trace_block_bio_queue(fn, data)`. -/
def unregister_trace_block_bio_queue (env : Env) (fn data : Addr) (k : Kernel) : Int × Kernel :=
  k.detach env (Call.unregister_trace_block_bio_queue fn data)
    ⟨env.__tracepoint_block_bio_queue, fn, data⟩

/-- Kernel function `register_trace_block_bio_complete(fn, data)`. -/
def register_trace_block_bio_complete (env : Env) (fn data : Addr) (k : Kernel) :
    Int × Kernel :=
  k.attach env (Call.register_trace_block_bio_complete fn data)
    ⟨env.__tracepoint_block_bio_complete, fn, data⟩

/-- Kernel function `unregister_trace_block_bio_complete(fn, data)`. -/
def unregister_trace_block_bio_complete (env : Env) (fn data : Addr) (k : Kernel) :
    Int × Kernel :=
  k.detach env (Call.unregister_trace_block_bio_complete fn data)
    ⟨env.__tracepoint_block_bio_complete, fn, data⟩

/-- Kernel function `register_trace_block_rq_complete(fn, data)`. -/
def register_trace_block_rq_complete (env : Env) (fn data : Addr) (k : Kernel) :
    Int × Kernel :=
  k.attach env (Call.register_trace_block_rq_complete fn data)
    ⟨env.__tracepoint_block_rq_complete, fn, data⟩

/-- Kernel function `unregister_trace_block_rq_complete(fn, data)`. -/
def unregister_trace_block_rq_complete (env : Env) (fn data : Addr) (k : Kernel) :
    Int × Kernel :=
  k.detach env (Call.unregister_trace_block_rq_complete fn data)
    ⟨env.__tracepoint_block_rq_complete, fn, data⟩

/-- Kernel macro `WARN_ON(condition)`: reports when the condition is non-zero
and does not change the control flow. -/
def WARN_ON (condition : Int) (k : Kernel) : Kernel :=
  if condition ≠ 0 then { k with warnings := k.warnings + 1 } else k

/-! ## Register / unregister functions of the legacy block (lines 57-108) -/

namespace Legacy

/-- Lines 57-60. -/
def iotrace_register_trace_block_bio_queue (env : Env) (fn : Addr) (k : Kernel) :
    Int × Kernel :=
  register_trace_block_bio_queue env fn NULL k

/-- Lines 62-65. -/
def iotrace_unregister_trace_block_bio_queue (env : Env) (fn : Addr) (k : Kernel) :
    Int × Kernel :=
  unregister_trace_block_bio_queue env fn NULL k

/-- Lines 72-95.  The two `goto` targets are the two early returns: after
`REG_RQ_COMPLETE_ERROR` the bio-level probe is unregistered and control
falls into `REG_BIO_COMPLETE_ERROR`, which returns `result`. -/
def iotrace_register_trace_block_bio_complete (env : Env) (fn : Addr) (k : Kernel) :
    Int × Kernel :=
  let (result, k) := register_trace_block_bio_complete env fn NULL k
  let k := WARN_ON result k
  if result ≠ 0 then
    (result, k)
  else
    let (result, k) := register_trace_block_rq_complete env env.iotrace_block_rq_complete fn k
    let k := WARN_ON result k
    if result ≠ 0 then
      let (_, k) := unregister_trace_block_bio_complete env fn NULL k
      (result, k)
    else
      (0, k)

/-- Lines 97-108. -/
def iotrace_unregister_trace_block_bio_complete (env : Env) (fn : Addr) (k : Kernel) :
    Int × Kernel :=
  let result : Int := 0
  let (r, k) := unregister_trace_block_bio_complete env fn NULL k
  let result := Int.lor result r
  let k := WARN_ON result k
  let (r, k) := unregister_trace_block_rq_complete env env.iotrace_block_rq_complete fn k
  let result := Int.lor result r
  let k := WARN_ON result k
  (result, k)

end Legacy

/-! ## Register / unregister functions of the modern block (lines 124-189) -/

namespace Modern

/-- Lines 124-130. -/
def iotrace_register_trace_block_bio_queue (env : Env) (fn : Addr) (k : Kernel) :
    Int × Kernel :=
  let sym_name := "__tracepoint_block_bio_queue"
  let (tracepoint, k) := kallsyms_lookup_name env sym_name k
  tracepoint_probe_register env tracepoint fn NULL k

/-- Lines 132-138. -/
def iotrace_unregister_trace_block_bio_queue (env : Env) (fn : Addr) (k : Kernel) :
    Int × Kernel :=
  let sym_name := "__tracepoint_block_bio_queue"
  let (tracepoint, k) := kallsyms_lookup_name env sym_name k
  tracepoint_probe_unregister env tracepoint fn NULL k

/-- Lines 145-172. -/
def iotrace_register_trace_block_bio_complete (env : Env) (fn : Addr) (k : Kernel) :
    Int × Kernel :=
  let sym_name := "__tracepoint_block_rq_complete"
  let (tracepoint, k) := kallsyms_lookup_name env sym_name k
  let (result, k) := register_trace_block_bio_complete env fn NULL k
  let k := WARN_ON result k
  if result ≠ 0 then
    (result, k)
  else
    let (result, k) :=
      tracepoint_probe_register env tracepoint env.iotrace_block_rq_complete fn k
    let k := WARN_ON result k
    if result ≠ 0 then
      let (_, k) := unregister_trace_block_bio_complete env fn NULL k
      (result, k)
    else
      (0, k)

/-- Lines 174-189. -/
def iotrace_unregister_trace_block_bio_complete (env : Env) (fn : Addr) (k : Kernel) :
    Int × Kernel :=
  let result : Int := 0
  let sym_name := "__tracepoint_block_rq_complete"
  let (tracepoint, k) := kallsyms_lookup_name env sym_name k
  let (r, k) := unregister_trace_block_bio_complete env fn NULL k
  let result := Int.lor result r
  let k := WARN_ON result k
  let (r, k) :=
    tracepoint_probe_unregister env tracepoint env.iotrace_block_rq_complete fn k
  let result := Int.lor result r
  let k := WARN_ON result k
  (result, k)

/-- One call of a register / unregister function of the modern block. -/
inductive Op where
  | register_bio_queue (fn : Addr)
  | unregister_bio_queue (fn : Addr)
  | register_bio_complete (fn : Addr)
  | unregister_bio_complete (fn : Addr)
deriving DecidableEq, Repr

/-- The symbol name the operation hands to `kallsyms_lookup_name`
(lines 126, 134, 148, 177). -/
def Op.sym_name : Op → String
  | Op.register_bio_queue _ => "__tracepoint_block_bio_queue"
  | Op.unregister_bio_queue _ => "__tracepoint_block_bio_queue"
  | Op.register_bio_complete _ => "__tracepoint_block_rq_complete"
  | Op.unregister_bio_complete _ => "__tracepoint_block_rq_complete"

/-- Performs one operation; the status is dropped, the kernel state kept. -/
def Op.exec (env : Env) (o : Op) (k : Kernel) : Kernel :=
  match o with
  | Op.register_bio_queue fn => (iotrace_register_trace_block_bio_queue env fn k).2
  | Op.unregister_bio_queue fn => (iotrace_unregister_trace_block_bio_queue env fn k).2
  | Op.register_bio_complete fn => (iotrace_register_trace_block_bio_complete env fn k).2
  | Op.unregister_bio_complete fn => (iotrace_unregister_trace_block_bio_complete env fn k).2

/-- Performs a sequence of operations, first to last. -/
def run (env : Env) (ops : List Op) (k : Kernel) : Kernel :=
  ops.foldl (fun k o => o.exec env k) k

end Modern

/-- A kernel that knows both tracepoint symbols and in which every
registration and unregistration succeeds. -/
def env_ok : Env :=
  { kallsyms := fun name =>
      if name = "__tracepoint_block_bio_queue" then 4096
      else if name = "__tracepoint_block_rq_complete" then 8192
      else NULL
    __tracepoint_block_bio_queue := 4096
    __tracepoint_block_bio_complete := 6144
    __tracepoint_block_rq_complete := 8192
    iotrace_block_rq_complete := 770
    status := fun _ => 0 }

/-- A kernel that exports neither tracepoint symbol: every lookup returns
`NULL`.  Registration calls report success. -/
def env_no_symbols : Env :=
  { kallsyms := fun _ => NULL
    __tracepoint_block_bio_queue := 4096
    __tracepoint_block_bio_complete := 6144
    __tracepoint_block_rq_complete := 8192
    iotrace_block_rq_complete := 770
    status := fun _ => 0 }

/-- A kernel that exports the queue tracepoint symbol but not the
request-completion one.  Registration calls report success. -/
def env_no_rq_symbol : Env :=
  { kallsyms := fun name =>
      if name = "__tracepoint_block_bio_queue" then 4096 else NULL
    __tracepoint_block_bio_queue := 4096
    __tracepoint_block_bio_complete := 6144
    __tracepoint_block_rq_complete := 8192
    iotrace_block_rq_complete := 770
    status := fun _ => 0 }

/-- A kernel in which the request-level registration fails with `-ENOMEM`
(`-12`) and everything else succeeds. -/
def env_rq_fails : Env :=
  { kallsyms := env_ok.kallsyms
    __tracepoint_block_bio_queue := 4096
    __tracepoint_block_bio_complete := 6144
    __tracepoint_block_rq_complete := 8192
    iotrace_block_rq_complete := 770
    status := fun c =>
      match c with
      | Call.register_trace_block_rq_complete _ _ => -12
      | Call.tracepoint_probe_register 8192 770 _ => -12
      | _ => 0 }

/-- The bio-level completion probe: callback `fn` with data `NULL` on the
descriptor `__tracepoint_block_bio_complete` (lines 76 / 152). -/
def bio_probe (env : Env) (fn : Addr) : Probe :=
  ⟨env.__tracepoint_block_bio_complete, fn, NULL⟩

/-- The request-level completion probe of the legacy block: callback
`iotrace_block_rq_complete` with data `fn` on the statically linked
descriptor (line 82). -/
def Legacy.rq_probe (env : Env) (fn : Addr) : Probe :=
  ⟨env.__tracepoint_block_rq_complete, env.iotrace_block_rq_complete, fn⟩

/-- The request-level completion probe of the modern block: callback
`iotrace_block_rq_complete` with data `fn` on whatever address the lookup
of line 150 returned (lines 158-159). -/
def Modern.rq_probe (env : Env) (fn : Addr) : Probe :=
  ⟨env.kallsyms "__tracepoint_block_rq_complete", env.iotrace_block_rq_complete, fn⟩

/-! ## Completion correlator

`iotrace_block_rq_complete` is declared on lines 67-70 / 140-143 and defined
in another translation unit.  The correlation it takes part in is modelled
from section 4.5 of the specification. -/

namespace Correlator

/-- Modelled from the spec: the two completion notification paths,
`source ∈ {bio_path, request_path}`; the bodies of the two completion
callbacks are not part of the header. -/
inductive Source where
  | bio_path
  | request_path
deriving DecidableEq, Repr

/-- Modelled from the spec: the per-key states `queued` and `completed` of
the state machine `queued -> completed -> (record emitted) -> evicted`; a key
without an entry is one never queued or already evicted.  The correlation
state is not part of the header. -/
inductive Phase where
  | queued
  | completed
deriving DecidableEq, Repr

/-- Modelled from the spec: a completion record, reduced to the I/O key, the
path that produced it and the "queue-event-missing" tag; the record layout is
not part of the header. -/
structure Record where
  key : Nat
  source : Source
  queue_event_missing : Bool
deriving DecidableEq, Repr

/-- Modelled from the spec: the correlation state, per-key bookkeeping plus
the records handed to the consumer so far; it is not part of the header. -/
structure State where
  entries : Nat → Option Phase
  emitted : List Record

/-- Modelled from the spec: setting the entry of one key; the correlation
table is not part of the header. -/
def set_entry (entries : Nat → Option Phase) (key : Nat) (p : Option Phase) :
    Nat → Option Phase :=
  fun k => if k = key then p else entries k

/-- Modelled from the spec: `on_queued(key)` "establishes `queued` state";
the queue callback is not part of the header. -/
def on_queued (key : Nat) (s : State) : State :=
  { s with entries := set_entry s.entries key (some Phase.queued) }

/-- Modelled from the spec: `on_completion_signal(key, source)` "transitions
to `completed` and emits exactly one Trace Record the first time either
source signals completion for that key, silently discarding a second signal";
for a key never observed as queued it "still emits a best-effort completion
record but tags it as queue-event-missing".  The body of
`iotrace_block_rq_complete` and of the bio completion callback are not part
of the header. -/
def on_completion_signal (key : Nat) (source : Source) (s : State) : State :=
  match s.entries key with
  | some Phase.completed => s
  | some Phase.queued =>
      { entries := set_entry s.entries key (some Phase.completed)
        emitted := s.emitted ++ [⟨key, source, false⟩] }
  | none =>
      { entries := set_entry s.entries key (some Phase.completed)
        emitted := s.emitted ++ [⟨key, source, true⟩] }

/-- Modelled from the spec: eviction removes the entry of a key (after the
record was emitted, or after the grace period); the sweep is not part of the
header. -/
def evict (key : Nat) (s : State) : State :=
  { s with entries := set_entry s.entries key none }

/-- Modelled from the spec: the transitions of the per-key state machine, a
queue event, a completion signal from one of the two paths, or the eviction
of a key; the callbacks and the sweep are not part of the header. -/
inductive Event where
  | queued (key : Nat)
  | completion_signal (key : Nat) (source : Source)
  | evict (key : Nat)
deriving DecidableEq, Repr

/-- The key an event is about. -/
def Event.key : Event → Nat
  | Event.queued key => key
  | Event.completion_signal key _ => key
  | Event.evict key => key

/-- Performs one event. -/
def Event.apply : Event → State → State
  | Event.queued key, s => Correlator.on_queued key s
  | Event.completion_signal key source, s => Correlator.on_completion_signal key source s
  | Event.evict key, s => Correlator.evict key s

/-- Performs a sequence of events, first to last. -/
def run (events : List Event) (s : State) : State :=
  events.foldl (fun s e => e.apply s) s

end Correlator

/-! ## Profile resolution -/

/-- C4 (as stated, refuted): versions 2.6.32 and 6.0.0 lie outside the 3.10
and the 4.15 generation, yet resolution does not fail for them: 2.6.32
selects the legacy block and 6.0.0 the modern block. -/
theorem resolve_outside_generations_selects_profile :
    resolve (KERNEL_VERSION 2 6 32) = some Profile.legacy ∧
    resolve (KERNEL_VERSION 6 0 0) = some Profile.modern ∧
    resolve (KERNEL_VERSION 2 6 32) ≠ none ∧
    resolve (KERNEL_VERSION 6 0 0) ≠ none := by
  decide

/-- C4 (amended): resolution never fails.  Every version code selects a
block: the legacy one when the code is below `KERNEL_VERSION(4, 14, 0)`, the
modern one otherwise, whether or not the version belongs to one of the two
generations named in the header. -/
theorem resolve_never_unsupported (v : Nat) :
    resolve v = some (if v < KERNEL_VERSION 4 14 0 then Profile.legacy else Profile.modern) := by
  unfold resolve
  by_cases h : v < KERNEL_VERSION 4 14 0
  · simp [h]
  · have h2 : v ≥ KERNEL_VERSION 4 14 0 := Nat.le_of_not_lt h
    simp [h, h2]

/-- C5: profile selection partitions the version codes.  With
`KERNEL_VERSION(a, b, c) = a * 65536 + b * 256 + c`, the legacy block
(`bi_rw`, `bi_size`, `bi_sector`, static tracepoint registration) is selected
exactly for `v < KERNEL_VERSION(4, 14, 0)`, the modern block (`bi_opf`,
`bi_iter`, registration through symbol lookup) exactly for
`v >= KERNEL_VERSION(4, 14, 0)`; no version selects both and none selects
neither. -/
theorem resolve_partition (v : Nat) :
    (∀ a b c, KERNEL_VERSION a b c = a * 65536 + b * 256 + c) ∧
    (resolve v = some Profile.legacy ↔ v < KERNEL_VERSION 4 14 0) ∧
    (resolve v = some Profile.modern ↔ v ≥ KERNEL_VERSION 4 14 0) ∧
    ¬ (resolve v = some Profile.legacy ∧ resolve v = some Profile.modern) ∧
    resolve v ≠ none ∧
    Profile.legacy.accessors.IOTRACE_BIO_OP_FLAGS = OpFlagsVariant.bi_rw ∧
    Profile.legacy.accessors.IOTRACE_BIO_BISIZE = SizeVariant.bi_size ∧
    Profile.legacy.accessors.IOTRACE_BIO_BISECTOR = SectorVariant.bi_sector ∧
    Profile.legacy.accessors.registration = RegistrationVariant.static_tracepoint ∧
    Profile.modern.accessors.IOTRACE_BIO_OP_FLAGS = OpFlagsVariant.bi_opf ∧
    Profile.modern.accessors.IOTRACE_BIO_BISIZE = SizeVariant.bi_iter_bi_size ∧
    Profile.modern.accessors.IOTRACE_BIO_BISECTOR = SectorVariant.bi_iter_bi_sector ∧
    Profile.modern.accessors.registration = RegistrationVariant.symbol_lookup := by
  refine ⟨fun _ _ _ => rfl, ?_, ?_, ?_, ?_, rfl, rfl, rfl, rfl, rfl, rfl, rfl, rfl⟩
  · unfold resolve
    by_cases h : v < KERNEL_VERSION 4 14 0
    · simp [h]
    · have h2 : v ≥ KERNEL_VERSION 4 14 0 := Nat.le_of_not_lt h
      simp [h, h2]
  · unfold resolve
    by_cases h : v < KERNEL_VERSION 4 14 0
    · simp [h]
    · have h2 : v ≥ KERNEL_VERSION 4 14 0 := Nat.le_of_not_lt h
      simp [h, h2]
  · rintro ⟨h1, h2⟩
    rw [h1] at h2
    cases h2
  · unfold resolve
    by_cases h : v < KERNEL_VERSION 4 14 0
    · simp [h]
    · have h2 : v ≥ KERNEL_VERSION 4 14 0 := Nat.le_of_not_lt h
      simp [h, h2]

/-! ## Accessor selection -/

/-- C9 (as stated, refuted): 3.10.0 and 4.13.0 both resolve to the legacy
block, yet the header selects `(0)` as write hint for the first and
`bio->bi_write_hint` for the second; 4.15.0 and 5.1.0 both resolve to the
modern block, yet the block-device lookup, the add-mark call, the
memory-access check and the fault result type all differ. -/
theorem same_profile_different_accessors :
    resolve (KERNEL_VERSION 3 10 0) = resolve (KERNEL_VERSION 4 13 0) ∧
    IOTRACE_GET_WRITE_HINT ⟨KERNEL_VERSION 3 10 0, none, none⟩ = WriteHintVariant.zero ∧
    IOTRACE_GET_WRITE_HINT ⟨KERNEL_VERSION 4 13 0, none, none⟩
      = WriteHintVariant.bi_write_hint ∧
    config_h ⟨KERNEL_VERSION 3 10 0, none, none⟩
      ≠ config_h ⟨KERNEL_VERSION 4 13 0, none, none⟩ ∧
    resolve (KERNEL_VERSION 4 15 0) = resolve (KERNEL_VERSION 5 1 0) ∧
    IOTRACE_LOOKUP_BDEV ⟨KERNEL_VERSION 4 15 0, none, none⟩
      ≠ IOTRACE_LOOKUP_BDEV ⟨KERNEL_VERSION 5 1 0, none, none⟩ ∧
    IOTRACE_FSNOTIFY_ADD_MARK ⟨KERNEL_VERSION 4 15 0, none, none⟩
      ≠ IOTRACE_FSNOTIFY_ADD_MARK ⟨KERNEL_VERSION 5 1 0, none, none⟩ ∧
    IOTRACE_ACCESS_OK ⟨KERNEL_VERSION 4 15 0, none, none⟩
      ≠ IOTRACE_ACCESS_OK ⟨KERNEL_VERSION 5 1 0, none, none⟩ ∧
    iotrace_vm_fault_t ⟨KERNEL_VERSION 4 15 0, none, none⟩
      ≠ iotrace_vm_fault_t ⟨KERNEL_VERSION 5 1 0, none, none⟩ := by
  decide

/-- C9 (amended): two configurations that resolve to the same profile get the
same variant of every accessor defined inside the profile block (op-flags,
discard, size, sector, flush, registration).  The other five accessors follow
conditions of their own: two such configurations get the same write hint
exactly when they lie on the same side of 4.13.0, the same fault result type
exactly when they lie on the same side of 4.17.0, the same block-device
lookup exactly when both or neither lie in the range 4.15.0 to 4.16.0, the
same memory-access check exactly when the condition "5.0.0 or later, or
`RHEL_MAJOR` defined and at least 8" has the same truth value for both, and the
same add-mark call exactly when "below 4.18.0 and not
`IOTRACE_FSNOTIFY_VERSION_5`" has the same truth value for both and, where it
is false, they lie on the same side of 5.1.0. -/
theorem profile_block_depends_on_profile_only (c₁ c₂ : Config)
    (h : resolve c₁.LINUX_VERSION_CODE = resolve c₂.LINUX_VERSION_CODE) :
    (config_h c₁).block = (config_h c₂).block ∧
    ((config_h c₁).IOTRACE_GET_WRITE_HINT = (config_h c₂).IOTRACE_GET_WRITE_HINT ↔
      (c₁.LINUX_VERSION_CODE ≥ KERNEL_VERSION 4 13 0 ↔
        c₂.LINUX_VERSION_CODE ≥ KERNEL_VERSION 4 13 0)) ∧
    ((config_h c₁).iotrace_vm_fault_t = (config_h c₂).iotrace_vm_fault_t ↔
      (c₁.LINUX_VERSION_CODE ≥ KERNEL_VERSION 4 17 0 ↔
        c₂.LINUX_VERSION_CODE ≥ KERNEL_VERSION 4 17 0)) ∧
    ((config_h c₁).IOTRACE_LOOKUP_BDEV = (config_h c₂).IOTRACE_LOOKUP_BDEV ↔
      ((KERNEL_VERSION 4 15 0 ≤ c₁.LINUX_VERSION_CODE ∧
          c₁.LINUX_VERSION_CODE < KERNEL_VERSION 4 16 0) ↔
        (KERNEL_VERSION 4 15 0 ≤ c₂.LINUX_VERSION_CODE ∧
          c₂.LINUX_VERSION_CODE < KERNEL_VERSION 4 16 0))) ∧
    ((config_h c₁).IOTRACE_ACCESS_OK = (config_h c₂).IOTRACE_ACCESS_OK ↔
      ((c₁.LINUX_VERSION_CODE ≥ KERNEL_VERSION 5 0 0 ∨
          ∃ major, c₁.RHEL_MAJOR = some major ∧ major ≥ 8) ↔
        (c₂.LINUX_VERSION_CODE ≥ KERNEL_VERSION 5 0 0 ∨
          ∃ major, c₂.RHEL_MAJOR = some major ∧ major ≥ 8))) ∧
    ((config_h c₁).IOTRACE_FSNOTIFY_ADD_MARK = (config_h c₂).IOTRACE_FSNOTIFY_ADD_MARK ↔
      (((c₁.LINUX_VERSION_CODE < KERNEL_VERSION 4 18 0 ∧
            IOTRACE_FSNOTIFY_VERSION_5 c₁ = false) ↔
          (c₂.LINUX_VERSION_CODE < KERNEL_VERSION 4 18 0 ∧
            IOTRACE_FSNOTIFY_VERSION_5 c₂ = false)) ∧
        (¬ (c₁.LINUX_VERSION_CODE < KERNEL_VERSION 4 18 0 ∧
            IOTRACE_FSNOTIFY_VERSION_5 c₁ = false) →
          (c₁.LINUX_VERSION_CODE < KERNEL_VERSION 5 1 0 ↔
            c₂.LINUX_VERSION_CODE < KERNEL_VERSION 5 1 0)))) := by
  refine ⟨?_, ?_, ?_, ?_, ?_, ?_⟩
  · simp only [config_h, h]
  · simp only [config_h, IOTRACE_GET_WRITE_HINT]
    by_cases h1 : c₁.LINUX_VERSION_CODE ≥ KERNEL_VERSION 4 13 0 <;>
      by_cases h2 : c₂.LINUX_VERSION_CODE ≥ KERNEL_VERSION 4 13 0 <;> simp [h1, h2]
  · simp only [config_h, iotrace_vm_fault_t]
    by_cases h1 : c₁.LINUX_VERSION_CODE ≥ KERNEL_VERSION 4 17 0 <;>
      by_cases h2 : c₂.LINUX_VERSION_CODE ≥ KERNEL_VERSION 4 17 0 <;> simp [h1, h2]
  · simp only [config_h, IOTRACE_LOOKUP_BDEV, KERNEL_VERSION]
    split_ifs <;> simp <;> omega
  · simp only [config_h, IOTRACE_ACCESS_OK]
    cases hm1 : c₁.RHEL_MAJOR <;> cases hm2 : c₂.RHEL_MAJOR <;>
      by_cases h1 : c₁.LINUX_VERSION_CODE ≥ KERNEL_VERSION 5 0 0 <;>
      by_cases h2 : c₂.LINUX_VERSION_CODE ≥ KERNEL_VERSION 5 0 0 <;>
      simp [h1, h2] <;>
      split_ifs <;> simp_all
    all_goals omega
  · simp only [config_h, IOTRACE_FSNOTIFY_ADD_MARK]
    by_cases g1 : c₁.LINUX_VERSION_CODE < KERNEL_VERSION 4 18 0 ∧
        IOTRACE_FSNOTIFY_VERSION_5 c₁ = false <;>
      by_cases g2 : c₂.LINUX_VERSION_CODE < KERNEL_VERSION 4 18 0 ∧
        IOTRACE_FSNOTIFY_VERSION_5 c₂ = false <;>
      by_cases v1 : c₁.LINUX_VERSION_CODE < KERNEL_VERSION 5 1 0 <;>
      by_cases v2 : c₂.LINUX_VERSION_CODE < KERNEL_VERSION 5 1 0 <;>
      simp only [if_pos, if_neg, g1, g2, v1, v2, not_false_eq_true, iff_true, iff_false,
        true_iff, false_iff, not_true_eq_false, and_self, and_true, and_false, true_and,
        false_and, imp_self, true_implies, false_implies, reduceCtorEq]

/-- Witness for C9 (amended): 4.15.0 and 5.1.0 resolve to the same profile
and get the same profile block, whatever the RHEL markers. -/
theorem profile_block_depends_on_profile_only_witness :
    resolve (KERNEL_VERSION 4 15 0) = resolve (KERNEL_VERSION 5 1 0) ∧
    (config_h ⟨KERNEL_VERSION 4 15 0, none, none⟩).block
      = (config_h ⟨KERNEL_VERSION 5 1 0, some 8, some 0⟩).block :=
  ⟨by decide,
   (profile_block_depends_on_profile_only ⟨KERNEL_VERSION 4 15 0, none, none⟩
      ⟨KERNEL_VERSION 5 1 0, some 8, some 0⟩ (by decide)).1⟩

/-! ## Flag predicates -/

/-- Legacy block: a bio whose `bi_rw` has the write bit, `REQ_FLUSH` and
`REQ_FUA` set satisfies all three predicates, whatever (non-zero) masks the
kernel uses for the two flags. -/
theorem Legacy.write_flush_fua_retained (K : Legacy.blk_types) (b : Legacy.bio)
    (hflush : K.REQ_FLUSH ≠ 0) (hfua : K.REQ_FUA ≠ 0)
    (hw : b.bi_rw &&& 1 = 1)
    (hf : b.bi_rw &&& K.REQ_FLUSH = K.REQ_FLUSH)
    (hu : b.bi_rw &&& K.REQ_FUA = K.REQ_FUA) :
    Legacy.IOTRACE_BIO_IS_WRITE b = true ∧
    Legacy.IOTRACE_BIO_IS_FLUSH K b ≠ 0 ∧
    Legacy.IOTRACE_BIO_IS_FUA K b ≠ 0 := by
  refine ⟨?_, ?_, ?_⟩
  · simp [Legacy.IOTRACE_BIO_IS_WRITE, Legacy.bio_data_dir, Legacy.WRITE, hw]
  · simpa [Legacy.IOTRACE_BIO_IS_FLUSH, Legacy.IOTRACE_BIO_OP_FLAGS, hf] using hflush
  · simpa [Legacy.IOTRACE_BIO_IS_FUA, Legacy.IOTRACE_BIO_OP_FLAGS, hu] using hfua

/-- Legacy block: a bio with `REQ_DISCARD` set and `REQ_FLUSH` clear in
`bi_rw` is a discard and not a flush. -/
theorem Legacy.discard_not_flush (K : Legacy.blk_types) (b : Legacy.bio)
    (hdiscard : K.REQ_DISCARD ≠ 0)
    (hd : b.bi_rw &&& K.REQ_DISCARD = K.REQ_DISCARD)
    (hf : b.bi_rw &&& K.REQ_FLUSH = 0) :
    Legacy.IOTRACE_BIO_IS_DISCARD K b ≠ 0 ∧ Legacy.IOTRACE_BIO_IS_FLUSH K b = 0 := by
  refine ⟨?_, ?_⟩
  · simpa [Legacy.IOTRACE_BIO_IS_DISCARD, Legacy.IOTRACE_BIO_OP_FLAGS, hd] using hdiscard
  · simpa [Legacy.IOTRACE_BIO_IS_FLUSH, Legacy.IOTRACE_BIO_OP_FLAGS] using hf

/-- Modern block: the flush predicate only looks at bit 1 of the operation
code. -/
theorem Modern.is_flush_eq_op_bit (b : Modern.bio) :
    Modern.IOTRACE_BIO_IS_FLUSH b = Modern.bio_op b &&& 2 := by
  have h : Modern.REQ_OP_MASK &&& 2 = 2 := by decide
  simp only [Modern.IOTRACE_BIO_IS_FLUSH, Modern.IOTRACE_BIO_OP_FLAGS, Modern.bio_op,
    Modern.REQ_OP_FLUSH, Nat.and_assoc, h]

/-- Modern block: every bio whose operation is `REQ_OP_WRITE` has a zero flush
predicate, whatever flags (`REQ_PREFLUSH` included) it carries. -/
theorem Modern.write_never_flush (b : Modern.bio)
    (hop : Modern.bio_op b = Modern.REQ_OP_WRITE) :
    Modern.IOTRACE_BIO_IS_FLUSH b = 0 := by
  rw [Modern.is_flush_eq_op_bit, hop]
  decide

/-- Modern block: every bio whose operation is `REQ_OP_DISCARD` has a non-zero
flush predicate, whatever flags it carries. -/
theorem Modern.discard_always_flush (b : Modern.bio)
    (hop : Modern.bio_op b = Modern.REQ_OP_DISCARD) :
    Modern.IOTRACE_BIO_IS_DISCARD b = true ∧ Modern.IOTRACE_BIO_IS_FLUSH b = 2 := by
  refine ⟨?_, ?_⟩
  · simp [Modern.IOTRACE_BIO_IS_DISCARD, hop]
  · rw [Modern.is_flush_eq_op_bit, hop]
    decide

/-- C8 (code evaluated at the failing input): on the modern block the bio
`REQ_OP_WRITE | REQ_PREFLUSH | REQ_FUA` (kernel 4.15 masks) is a write with
operation code `REQ_OP_WRITE`, its FUA predicate is non-zero, and its flush
predicate is zero: `IOTRACE_BIO_IS_FLUSH` masks with the operation code
`REQ_OP_FLUSH = 2` and never looks at `REQ_PREFLUSH`.  On the legacy block the
corresponding bio `REQ_WRITE | REQ_FLUSH | REQ_FUA` has all three predicates
set. -/
theorem modern_write_preflush_fua_loses_flush :
    (Modern.write_preflush_fua Modern.linux_4_15).bi_opf = 393217 ∧
    Modern.bio_op (Modern.write_preflush_fua Modern.linux_4_15) = Modern.REQ_OP_WRITE ∧
    (Modern.write_preflush_fua Modern.linux_4_15).bi_opf &&& Modern.linux_4_15.REQ_PREFLUSH
      = Modern.linux_4_15.REQ_PREFLUSH ∧
    Modern.IOTRACE_BIO_IS_WRITE (Modern.write_preflush_fua Modern.linux_4_15) = true ∧
    Modern.IOTRACE_BIO_IS_FUA Modern.linux_4_15
      (Modern.write_preflush_fua Modern.linux_4_15) ≠ 0 ∧
    Modern.IOTRACE_BIO_IS_FLUSH (Modern.write_preflush_fua Modern.linux_4_15) = 0 ∧
    Legacy.IOTRACE_BIO_IS_WRITE ⟨100, 1 ||| 2 ^ 12 ||| 2 ^ 11, 4096⟩ = true ∧
    Legacy.IOTRACE_BIO_IS_FLUSH Legacy.linux_3_10 ⟨100, 1 ||| 2 ^ 12 ||| 2 ^ 11, 4096⟩ ≠ 0 ∧
    Legacy.IOTRACE_BIO_IS_FUA Legacy.linux_3_10 ⟨100, 1 ||| 2 ^ 12 ||| 2 ^ 11, 4096⟩ ≠ 0 := by
  decide

/-- C10 (code evaluated at the failing input): on the modern block the plain
discard `bi_opf = REQ_OP_DISCARD = 3`, which carries no flag at all, is a
discard and its flush predicate is `3 & 2 = 2`, non-zero: it is classified as
a flush.  On the legacy block the plain discard `bi_rw = REQ_WRITE |
REQ_DISCARD` is a discard with a zero flush predicate. -/
theorem modern_plain_discard_classified_as_flush :
    Modern.bio_op Modern.plain_discard = Modern.REQ_OP_DISCARD ∧
    Modern.plain_discard.bi_opf &&& Modern.linux_4_15.REQ_PREFLUSH = 0 ∧
    Modern.IOTRACE_BIO_IS_DISCARD Modern.plain_discard = true ∧
    Modern.IOTRACE_BIO_IS_FLUSH Modern.plain_discard = 2 ∧
    Modern.IOTRACE_BIO_IS_FLUSH Modern.plain_discard ≠ 0 ∧
    Legacy.IOTRACE_BIO_IS_DISCARD Legacy.linux_3_10 ⟨100, 1 ||| 2 ^ 7, 4096⟩ ≠ 0 ∧
    Legacy.IOTRACE_BIO_IS_FLUSH Legacy.linux_3_10 ⟨100, 1 ||| 2 ^ 7, 4096⟩ = 0 := by
  decide

/-! ## Registration and unregistration -/

/-- Bitwise OR with `0` on the left, as in `int result = 0; result |= r`. -/
theorem Int_lor_zero_left (x : Int) : Int.lor 0 x = x := by
  cases x with
  | ofNat n =>
    show Int.lor (Int.ofNat 0) (Int.ofNat n) = Int.ofNat n
    simp [Int.lor]
  | negSucc n =>
    show Int.lor (Int.ofNat 0) (Int.negSucc n) = Int.negSucc n
    simp [Int.lor, Nat.ldiff]

/-- The bitwise OR of two natural numbers is `0` exactly when both are `0`. -/
theorem Nat_lor_eq_zero (m n : Nat) : m ||| n = 0 ↔ m = 0 ∧ n = 0 := by
  constructor
  · intro h
    have hbits : ∀ i, (m.testBit i || n.testBit i) = false := by
      intro i
      rw [← Nat.testBit_or, h, Nat.zero_testBit]
    constructor
    · apply Nat.zero_of_testBit_eq_false
      intro i
      have := hbits i
      simp only [Bool.or_eq_false_iff] at this
      exact this.1
    · apply Nat.zero_of_testBit_eq_false
      intro i
      have := hbits i
      simp only [Bool.or_eq_false_iff] at this
      exact this.2
  · rintro ⟨rfl, rfl⟩
    rfl

/-- The bitwise OR of two integers is `0` exactly when both are `0`. -/
theorem Int_lor_eq_zero (a b : Int) : Int.lor a b = 0 ↔ a = 0 ∧ b = 0 := by
  cases a with
  | ofNat m =>
    cases b with
    | ofNat n =>
      show Int.lor (Int.ofNat m) (Int.ofNat n) = 0 ↔ Int.ofNat m = 0 ∧ Int.ofNat n = 0
      simp [Int.lor, Nat_lor_eq_zero]
    | negSucc n =>
      show Int.lor (Int.ofNat m) (Int.negSucc n) = 0 ↔ Int.ofNat m = 0 ∧ Int.negSucc n = 0
      simp [Int.lor]
  | negSucc m =>
    cases b with
    | ofNat n =>
      show Int.lor (Int.negSucc m) (Int.ofNat n) = 0 ↔ Int.negSucc m = 0 ∧ Int.ofNat n = 0
      simp [Int.lor]
    | negSucc n =>
      show Int.lor (Int.negSucc m) (Int.negSucc n) = 0 ↔ Int.negSucc m = 0 ∧ Int.negSucc n = 0
      simp [Int.lor]

/-- `WARN_ON` leaves the recorded calls alone. -/
theorem WARN_ON_calls (c : Int) (k : Kernel) : (WARN_ON c k).calls = k.calls := by
  unfold WARN_ON
  split <;> rfl

/-- `WARN_ON` leaves the probe table alone. -/
theorem WARN_ON_probes (c : Int) (k : Kernel) : (WARN_ON c k).probes = k.probes := by
  unfold WARN_ON
  split <;> rfl

/-- C2: on both blocks `iotrace_unregister_trace_block_bio_complete` always
attempts the bio-level and then the request-level unregistration, whatever
the first one returns; its status is the bitwise OR of the two statuses and
is `0` exactly when both are `0`. -/
theorem unregister_bio_complete_best_effort (env : Env) (fn : Addr) (k : Kernel) :
    ((Legacy.iotrace_unregister_trace_block_bio_complete env fn k).2.calls
      = k.calls ++ [Call.unregister_trace_block_bio_complete fn NULL,
          Call.unregister_trace_block_rq_complete env.iotrace_block_rq_complete fn] ∧
     (Legacy.iotrace_unregister_trace_block_bio_complete env fn k).1
      = Int.lor (env.status (Call.unregister_trace_block_bio_complete fn NULL))
          (env.status
            (Call.unregister_trace_block_rq_complete env.iotrace_block_rq_complete fn)) ∧
     ((Legacy.iotrace_unregister_trace_block_bio_complete env fn k).1 = 0 ↔
        env.status (Call.unregister_trace_block_bio_complete fn NULL) = 0 ∧
        env.status
          (Call.unregister_trace_block_rq_complete env.iotrace_block_rq_complete fn) = 0)) ∧
    ((Modern.iotrace_unregister_trace_block_bio_complete env fn k).2.calls
      = k.calls ++ [Call.kallsyms_lookup_name "__tracepoint_block_rq_complete",
          Call.unregister_trace_block_bio_complete fn NULL,
          Call.tracepoint_probe_unregister (env.kallsyms "__tracepoint_block_rq_complete")
            env.iotrace_block_rq_complete fn] ∧
     (Modern.iotrace_unregister_trace_block_bio_complete env fn k).1
      = Int.lor (env.status (Call.unregister_trace_block_bio_complete fn NULL))
          (env.status
            (Call.tracepoint_probe_unregister (env.kallsyms "__tracepoint_block_rq_complete")
              env.iotrace_block_rq_complete fn)) ∧
     ((Modern.iotrace_unregister_trace_block_bio_complete env fn k).1 = 0 ↔
        env.status (Call.unregister_trace_block_bio_complete fn NULL) = 0 ∧
        env.status
          (Call.tracepoint_probe_unregister (env.kallsyms "__tracepoint_block_rq_complete")
            env.iotrace_block_rq_complete fn) = 0)) := by
  refine ⟨⟨?_, ?_, ?_⟩, ⟨?_, ?_, ?_⟩⟩
  · simp [Legacy.iotrace_unregister_trace_block_bio_complete,
      unregister_trace_block_bio_complete, unregister_trace_block_rq_complete,
      Kernel.detach, WARN_ON_calls]
  · simp [Legacy.iotrace_unregister_trace_block_bio_complete,
      unregister_trace_block_bio_complete, unregister_trace_block_rq_complete,
      Kernel.detach, Int_lor_zero_left]
  · simp [Legacy.iotrace_unregister_trace_block_bio_complete,
      unregister_trace_block_bio_complete, unregister_trace_block_rq_complete,
      Kernel.detach, Int_lor_zero_left, Int_lor_eq_zero]
  · simp [Modern.iotrace_unregister_trace_block_bio_complete, kallsyms_lookup_name,
      unregister_trace_block_bio_complete, tracepoint_probe_unregister,
      Kernel.detach, WARN_ON_calls]
  · simp [Modern.iotrace_unregister_trace_block_bio_complete, kallsyms_lookup_name,
      unregister_trace_block_bio_complete, tracepoint_probe_unregister,
      Kernel.detach, Int_lor_zero_left]
  · simp [Modern.iotrace_unregister_trace_block_bio_complete, kallsyms_lookup_name,
      unregister_trace_block_bio_complete, tracepoint_probe_unregister,
      Kernel.detach, Int_lor_zero_left, Int_lor_eq_zero]

/-- C1: `iotrace_register_trace_block_bio_complete` is all-or-nothing on both
blocks.  A registration succeeds (status `0`, probe attached) or fails
(non-zero status, probe not attached), and the rollback unregistration
removes the probe (`hundo`).  Starting with neither probe attached:
the function returns `0` exactly when both registrations returned `0`, and
then both probes are attached; when the bio-level registration fails its
status is returned and the request-level registration is not attempted; when
the request-level registration fails its status is returned and the bio-level
probe is unregistered again; after either failure the probe table is what it
was at entry, so neither probe is attached. -/
theorem register_bio_complete_all_or_nothing (env : Env) (fn : Addr) (k : Kernel)
    (hundo : env.status (Call.unregister_trace_block_bio_complete fn NULL) = 0)
    (hbio : k.registered (bio_probe env fn) = false)
    (hrq_legacy : k.registered (Legacy.rq_probe env fn) = false)
    (hrq_modern : k.registered (Modern.rq_probe env fn) = false) :
    (((Legacy.iotrace_register_trace_block_bio_complete env fn k).1 = 0 ↔
        env.status (Call.register_trace_block_bio_complete fn NULL) = 0 ∧
        env.status
          (Call.register_trace_block_rq_complete env.iotrace_block_rq_complete fn) = 0) ∧
     (env.status (Call.register_trace_block_bio_complete fn NULL) = 0 →
      env.status (Call.register_trace_block_rq_complete env.iotrace_block_rq_complete fn) = 0 →
        (Legacy.iotrace_register_trace_block_bio_complete env fn k).2.calls
          = k.calls ++ [Call.register_trace_block_bio_complete fn NULL,
              Call.register_trace_block_rq_complete env.iotrace_block_rq_complete fn] ∧
        (Legacy.iotrace_register_trace_block_bio_complete env fn k).2.probes
          = Legacy.rq_probe env fn :: bio_probe env fn :: k.probes ∧
        (Legacy.iotrace_register_trace_block_bio_complete env fn k).2.registered
          (bio_probe env fn) = true ∧
        (Legacy.iotrace_register_trace_block_bio_complete env fn k).2.registered
          (Legacy.rq_probe env fn) = true) ∧
     (env.status (Call.register_trace_block_bio_complete fn NULL) ≠ 0 →
        (Legacy.iotrace_register_trace_block_bio_complete env fn k).1
          = env.status (Call.register_trace_block_bio_complete fn NULL) ∧
        (Legacy.iotrace_register_trace_block_bio_complete env fn k).2.calls
          = k.calls ++ [Call.register_trace_block_bio_complete fn NULL] ∧
        (Legacy.iotrace_register_trace_block_bio_complete env fn k).2.probes = k.probes ∧
        (Legacy.iotrace_register_trace_block_bio_complete env fn k).2.registered
          (bio_probe env fn) = false ∧
        (Legacy.iotrace_register_trace_block_bio_complete env fn k).2.registered
          (Legacy.rq_probe env fn) = false) ∧
     (env.status (Call.register_trace_block_bio_complete fn NULL) = 0 →
      env.status (Call.register_trace_block_rq_complete env.iotrace_block_rq_complete fn) ≠ 0 →
        (Legacy.iotrace_register_trace_block_bio_complete env fn k).1
          = env.status
              (Call.register_trace_block_rq_complete env.iotrace_block_rq_complete fn) ∧
        (Legacy.iotrace_register_trace_block_bio_complete env fn k).2.calls
          = k.calls ++ [Call.register_trace_block_bio_complete fn NULL,
              Call.register_trace_block_rq_complete env.iotrace_block_rq_complete fn,
              Call.unregister_trace_block_bio_complete fn NULL] ∧
        (Legacy.iotrace_register_trace_block_bio_complete env fn k).2.probes = k.probes ∧
        (Legacy.iotrace_register_trace_block_bio_complete env fn k).2.registered
          (bio_probe env fn) = false ∧
        (Legacy.iotrace_register_trace_block_bio_complete env fn k).2.registered
          (Legacy.rq_probe env fn) = false)) ∧
    (((Modern.iotrace_register_trace_block_bio_complete env fn k).1 = 0 ↔
        env.status (Call.register_trace_block_bio_complete fn NULL) = 0 ∧
        env.status
          (Call.tracepoint_probe_register (env.kallsyms "__tracepoint_block_rq_complete")
            env.iotrace_block_rq_complete fn) = 0) ∧
     (env.status (Call.register_trace_block_bio_complete fn NULL) = 0 →
      env.status
          (Call.tracepoint_probe_register (env.kallsyms "__tracepoint_block_rq_complete")
            env.iotrace_block_rq_complete fn) = 0 →
        (Modern.iotrace_register_trace_block_bio_complete env fn k).2.calls
          = k.calls ++ [Call.kallsyms_lookup_name "__tracepoint_block_rq_complete",
              Call.register_trace_block_bio_complete fn NULL,
              Call.tracepoint_probe_register (env.kallsyms "__tracepoint_block_rq_complete")
                env.iotrace_block_rq_complete fn] ∧
        (Modern.iotrace_register_trace_block_bio_complete env fn k).2.probes
          = Modern.rq_probe env fn :: bio_probe env fn :: k.probes ∧
        (Modern.iotrace_register_trace_block_bio_complete env fn k).2.registered
          (bio_probe env fn) = true ∧
        (Modern.iotrace_register_trace_block_bio_complete env fn k).2.registered
          (Modern.rq_probe env fn) = true) ∧
     (env.status (Call.register_trace_block_bio_complete fn NULL) ≠ 0 →
        (Modern.iotrace_register_trace_block_bio_complete env fn k).1
          = env.status (Call.register_trace_block_bio_complete fn NULL) ∧
        (Modern.iotrace_register_trace_block_bio_complete env fn k).2.calls
          = k.calls ++ [Call.kallsyms_lookup_name "__tracepoint_block_rq_complete",
              Call.register_trace_block_bio_complete fn NULL] ∧
        (Modern.iotrace_register_trace_block_bio_complete env fn k).2.probes = k.probes ∧
        (Modern.iotrace_register_trace_block_bio_complete env fn k).2.registered
          (bio_probe env fn) = false ∧
        (Modern.iotrace_register_trace_block_bio_complete env fn k).2.registered
          (Modern.rq_probe env fn) = false) ∧
     (env.status (Call.register_trace_block_bio_complete fn NULL) = 0 →
      env.status
          (Call.tracepoint_probe_register (env.kallsyms "__tracepoint_block_rq_complete")
            env.iotrace_block_rq_complete fn) ≠ 0 →
        (Modern.iotrace_register_trace_block_bio_complete env fn k).1
          = env.status
              (Call.tracepoint_probe_register (env.kallsyms "__tracepoint_block_rq_complete")
                env.iotrace_block_rq_complete fn) ∧
        (Modern.iotrace_register_trace_block_bio_complete env fn k).2.calls
          = k.calls ++ [Call.kallsyms_lookup_name "__tracepoint_block_rq_complete",
              Call.register_trace_block_bio_complete fn NULL,
              Call.tracepoint_probe_register (env.kallsyms "__tracepoint_block_rq_complete")
                env.iotrace_block_rq_complete fn,
              Call.unregister_trace_block_bio_complete fn NULL] ∧
        (Modern.iotrace_register_trace_block_bio_complete env fn k).2.probes = k.probes ∧
        (Modern.iotrace_register_trace_block_bio_complete env fn k).2.registered
          (bio_probe env fn) = false ∧
        (Modern.iotrace_register_trace_block_bio_complete env fn k).2.registered
          (Modern.rq_probe env fn) = false)) := by
  simp only [Kernel.registered, decide_eq_false_iff_not] at hbio hrq_legacy hrq_modern
  constructor
  · by_cases h1 : env.status (Call.register_trace_block_bio_complete fn NULL) = 0
    · by_cases h2 : env.status
          (Call.register_trace_block_rq_complete env.iotrace_block_rq_complete fn) = 0
      · simp [Legacy.iotrace_register_trace_block_bio_complete,
          register_trace_block_bio_complete, register_trace_block_rq_complete,
          unregister_trace_block_bio_complete, Kernel.attach, Kernel.detach,
          Kernel.registered, WARN_ON_calls, WARN_ON_probes, h1, h2, bio_probe,
          Legacy.rq_probe]
      · simp [Legacy.iotrace_register_trace_block_bio_complete,
          register_trace_block_bio_complete, register_trace_block_rq_complete,
          unregister_trace_block_bio_complete, Kernel.attach, Kernel.detach,
          Kernel.registered, WARN_ON_calls, WARN_ON_probes, h1, h2, hundo]
        exact ⟨hbio, hrq_legacy⟩
    · simp [Legacy.iotrace_register_trace_block_bio_complete,
        register_trace_block_bio_complete, register_trace_block_rq_complete,
        unregister_trace_block_bio_complete, Kernel.attach, Kernel.detach,
        Kernel.registered, WARN_ON_calls, WARN_ON_probes, h1]
      exact ⟨hbio, hrq_legacy⟩
  · by_cases h1 : env.status (Call.register_trace_block_bio_complete fn NULL) = 0
    · by_cases h2 : env.status
          (Call.tracepoint_probe_register (env.kallsyms "__tracepoint_block_rq_complete")
            env.iotrace_block_rq_complete fn) = 0
      · simp [Modern.iotrace_register_trace_block_bio_complete, kallsyms_lookup_name,
          register_trace_block_bio_complete, tracepoint_probe_register,
          unregister_trace_block_bio_complete, Kernel.attach, Kernel.detach,
          Kernel.registered, WARN_ON_calls, WARN_ON_probes, h1, h2, bio_probe,
          Modern.rq_probe]
      · simp [Modern.iotrace_register_trace_block_bio_complete, kallsyms_lookup_name,
          register_trace_block_bio_complete, tracepoint_probe_register,
          unregister_trace_block_bio_complete, Kernel.attach, Kernel.detach,
          Kernel.registered, WARN_ON_calls, WARN_ON_probes, h1, h2, hundo]
        exact ⟨hbio, hrq_modern⟩
    · simp [Modern.iotrace_register_trace_block_bio_complete, kallsyms_lookup_name,
        register_trace_block_bio_complete, tracepoint_probe_register,
        unregister_trace_block_bio_complete, Kernel.attach, Kernel.detach,
        Kernel.registered, WARN_ON_calls, WARN_ON_probes, h1]
      exact ⟨hbio, hrq_modern⟩

/-- Witness for C1: on a freshly booted
kernel in which the request-level registration fails with `-12`, both blocks
return `-12` and leave the probe table empty. -/
theorem register_bio_complete_all_or_nothing_witness :
    env_rq_fails.status (Call.unregister_trace_block_bio_complete 5 NULL) = 0 ∧
    Kernel.boot.registered (bio_probe env_rq_fails 5) = false ∧
    Kernel.boot.registered (Legacy.rq_probe env_rq_fails 5) = false ∧
    Kernel.boot.registered (Modern.rq_probe env_rq_fails 5) = false ∧
    (Legacy.iotrace_register_trace_block_bio_complete env_rq_fails 5 Kernel.boot).1 = -12 ∧
    (Legacy.iotrace_register_trace_block_bio_complete env_rq_fails 5 Kernel.boot).2.probes
      = [] ∧
    (Modern.iotrace_register_trace_block_bio_complete env_rq_fails 5 Kernel.boot).1 = -12 ∧
    (Modern.iotrace_register_trace_block_bio_complete env_rq_fails 5 Kernel.boot).2.probes
      = [] :=
  have h := register_bio_complete_all_or_nothing env_rq_fails 5 Kernel.boot
    (by decide) (by decide) (by decide) (by decide)
  ⟨by decide, by decide, by decide, by decide,
   (h.1.2.2.2 (by decide) (by decide)).1,
   (h.1.2.2.2 (by decide) (by decide)).2.2.1,
   (h.2.2.2.2 (by decide) (by decide)).1,
   (h.2.2.2.2 (by decide) (by decide)).2.2.1⟩

/-- C6 (as stated, refuted): on a kernel whose symbol table knows neither
tracepoint (both lookups return `NULL`) and whose registration calls report
success, `iotrace_register_trace_block_bio_queue` hands `NULL` to
`tracepoint_probe_register` and returns `0`;
`iotrace_register_trace_block_bio_complete` attaches the bio-level probe,
hands `NULL` to `tracepoint_probe_register` and returns `0`. -/
theorem null_handle_reaches_probe_register :
    env_no_symbols.kallsyms "__tracepoint_block_bio_queue" = NULL ∧
    env_no_symbols.kallsyms "__tracepoint_block_rq_complete" = NULL ∧
    Modern.iotrace_register_trace_block_bio_queue env_no_symbols 5 Kernel.boot
      = (0, { probes := [⟨NULL, 5, NULL⟩],
              calls := [Call.kallsyms_lookup_name "__tracepoint_block_bio_queue",
                        Call.tracepoint_probe_register NULL 5 NULL],
              warnings := 0 }) ∧
    Modern.iotrace_register_trace_block_bio_complete env_no_symbols 5 Kernel.boot
      = (0, { probes := [⟨NULL, 770, 5⟩, ⟨6144, 5, NULL⟩],
              calls := [Call.kallsyms_lookup_name "__tracepoint_block_rq_complete",
                        Call.register_trace_block_bio_complete 5 NULL,
                        Call.tracepoint_probe_register NULL 770 5],
              warnings := 0 }) := by
  decide

/-- C6 (amended): the modern block does not validate the located handle.
When the lookup of `__tracepoint_block_bio_queue` returns `NULL`,
`iotrace_register_trace_block_bio_queue` passes `NULL` to
`tracepoint_probe_register` and returns the status of that call.  When the
lookup of `__tracepoint_block_rq_complete` returns `NULL`,
`iotrace_register_trace_block_bio_complete` first performs the bio-level
registration; if that fails it returns its status and the null handle is not
used; if it succeeds, `NULL` is passed to `tracepoint_probe_register`, whose
status is returned (after unregistering the bio-level probe when it is
non-zero).  Each function depends on the lookup of its own symbol only. -/
theorem null_handle_not_validated (env : Env) (fn : Addr) (k : Kernel) :
    (env.kallsyms "__tracepoint_block_bio_queue" = NULL →
      (Modern.iotrace_register_trace_block_bio_queue env fn k).1
        = env.status (Call.tracepoint_probe_register NULL fn NULL) ∧
      (Modern.iotrace_register_trace_block_bio_queue env fn k).2.calls
        = k.calls ++ [Call.kallsyms_lookup_name "__tracepoint_block_bio_queue",
            Call.tracepoint_probe_register NULL fn NULL]) ∧
    (env.kallsyms "__tracepoint_block_rq_complete" = NULL →
      (env.status (Call.register_trace_block_bio_complete fn NULL) ≠ 0 →
        (Modern.iotrace_register_trace_block_bio_complete env fn k).1
          = env.status (Call.register_trace_block_bio_complete fn NULL) ∧
        (Modern.iotrace_register_trace_block_bio_complete env fn k).2.calls
          = k.calls ++ [Call.kallsyms_lookup_name "__tracepoint_block_rq_complete",
              Call.register_trace_block_bio_complete fn NULL]) ∧
      (env.status (Call.register_trace_block_bio_complete fn NULL) = 0 →
        (Modern.iotrace_register_trace_block_bio_complete env fn k).1
          = env.status
              (Call.tracepoint_probe_register NULL env.iotrace_block_rq_complete fn) ∧
        (Modern.iotrace_register_trace_block_bio_complete env fn k).2.calls
          = k.calls ++ [Call.kallsyms_lookup_name "__tracepoint_block_rq_complete",
              Call.register_trace_block_bio_complete fn NULL,
              Call.tracepoint_probe_register NULL env.iotrace_block_rq_complete fn] ++
            (if env.status
                  (Call.tracepoint_probe_register NULL env.iotrace_block_rq_complete fn) = 0
              then [] else [Call.unregister_trace_block_bio_complete fn NULL]))) := by
  refine ⟨fun hqueue => ⟨?_, ?_⟩, fun hrq => ⟨?_, ?_⟩⟩
  · simp [Modern.iotrace_register_trace_block_bio_queue, kallsyms_lookup_name,
      tracepoint_probe_register, Kernel.attach, hqueue]
  · simp [Modern.iotrace_register_trace_block_bio_queue, kallsyms_lookup_name,
      tracepoint_probe_register, Kernel.attach, hqueue]
  · intro h1
    simp [Modern.iotrace_register_trace_block_bio_complete, kallsyms_lookup_name,
      register_trace_block_bio_complete, Kernel.attach, WARN_ON_calls, h1]
  · intro h1
    by_cases h2 : env.status
        (Call.tracepoint_probe_register NULL env.iotrace_block_rq_complete fn) = 0
    · simp [Modern.iotrace_register_trace_block_bio_complete, kallsyms_lookup_name,
        register_trace_block_bio_complete, tracepoint_probe_register,
        unregister_trace_block_bio_complete, Kernel.attach, Kernel.detach,
        WARN_ON_calls, h1, h2, hrq]
    · simp [Modern.iotrace_register_trace_block_bio_complete, kallsyms_lookup_name,
        register_trace_block_bio_complete, tracepoint_probe_register,
        unregister_trace_block_bio_complete, Kernel.attach, Kernel.detach,
        WARN_ON_calls, h1, h2, hrq]

/-- Witness for C6 (amended): on the kernel without any tracepoint symbol the
queue registration hands `NULL` to `tracepoint_probe_register`; on the kernel
that lacks only the request-completion symbol the completion registration
does, after the bio-level registration succeeded. -/
theorem null_handle_not_validated_witness :
    env_no_symbols.kallsyms "__tracepoint_block_bio_queue" = NULL ∧
    (Modern.iotrace_register_trace_block_bio_queue env_no_symbols 5 Kernel.boot).2.calls
      = [Call.kallsyms_lookup_name "__tracepoint_block_bio_queue",
          Call.tracepoint_probe_register NULL 5 NULL] ∧
    env_no_rq_symbol.kallsyms "__tracepoint_block_bio_queue" ≠ NULL ∧
    env_no_rq_symbol.kallsyms "__tracepoint_block_rq_complete" = NULL ∧
    env_no_rq_symbol.status (Call.register_trace_block_bio_complete 5 NULL) = 0 ∧
    (Modern.iotrace_register_trace_block_bio_complete env_no_rq_symbol 5 Kernel.boot).2.calls
      = [Call.kallsyms_lookup_name "__tracepoint_block_rq_complete",
          Call.register_trace_block_bio_complete 5 NULL,
          Call.tracepoint_probe_register NULL 770 5] :=
  ⟨by decide,
   ((null_handle_not_validated env_no_symbols 5 Kernel.boot).1 (by decide)).2,
   by decide, by decide, by decide,
   (((null_handle_not_validated env_no_rq_symbol 5 Kernel.boot).2 (by decide)).2
      (by decide)).2⟩

/-- Every operation of the modern block performs exactly one lookup, of its
own symbol name. -/
theorem Modern.exec_lookups (env : Env) (o : Modern.Op) (k : Kernel) (name : String) :
    (o.exec env k).lookups name
      = k.lookups name + (if o.sym_name = name then 1 else 0) := by
  cases o with
  | register_bio_queue fn =>
    by_cases hn : "__tracepoint_block_bio_queue" = name <;>
      simp [Modern.Op.exec, Modern.Op.sym_name, Kernel.lookups,
        Modern.iotrace_register_trace_block_bio_queue, kallsyms_lookup_name,
        tracepoint_probe_register, Kernel.attach, List.count_cons, hn]
  | unregister_bio_queue fn =>
    by_cases hn : "__tracepoint_block_bio_queue" = name <;>
      simp [Modern.Op.exec, Modern.Op.sym_name, Kernel.lookups,
        Modern.iotrace_unregister_trace_block_bio_queue, kallsyms_lookup_name,
        tracepoint_probe_unregister, Kernel.detach, List.count_cons, hn]
  | register_bio_complete fn =>
    by_cases h1 : env.status (Call.register_trace_block_bio_complete fn NULL) = 0 <;>
      by_cases h2 : env.status
        (Call.tracepoint_probe_register (env.kallsyms "__tracepoint_block_rq_complete")
          env.iotrace_block_rq_complete fn) = 0 <;>
      by_cases hn : "__tracepoint_block_rq_complete" = name <;>
      (try subst hn) <;>
      simp_all [Modern.Op.exec, Modern.Op.sym_name, Kernel.lookups,
        Modern.iotrace_register_trace_block_bio_complete, kallsyms_lookup_name,
        register_trace_block_bio_complete, tracepoint_probe_register,
        unregister_trace_block_bio_complete, Kernel.attach, Kernel.detach,
        WARN_ON_calls, List.count_cons]
  | unregister_bio_complete fn =>
    by_cases hn : "__tracepoint_block_rq_complete" = name <;>
      simp [Modern.Op.exec, Modern.Op.sym_name, Kernel.lookups,
        Modern.iotrace_unregister_trace_block_bio_complete, kallsyms_lookup_name,
        unregister_trace_block_bio_complete, tracepoint_probe_unregister, Kernel.detach,
        WARN_ON_calls, List.count_cons, hn]

/-- C7 (as stated, refuted): registering and then unregistering the queue
probe looks the name `__tracepoint_block_bio_queue` up twice, and registering
and then unregistering the completion probes looks the name
`__tracepoint_block_rq_complete` up twice; the second lookup returns the
handle the first one returned. -/
theorem lookup_repeated_on_every_call :
    (Modern.run env_ok [Modern.Op.register_bio_queue 5, Modern.Op.unregister_bio_queue 5]
      Kernel.boot).lookups "__tracepoint_block_bio_queue" = 2 ∧
    (Modern.run env_ok [Modern.Op.register_bio_complete 5, Modern.Op.unregister_bio_complete 5]
      Kernel.boot).lookups "__tracepoint_block_rq_complete" = 2 ∧
    (Modern.run env_ok [Modern.Op.register_bio_queue 5, Modern.Op.unregister_bio_queue 5]
      Kernel.boot).calls
      = [Call.kallsyms_lookup_name "__tracepoint_block_bio_queue",
         Call.tracepoint_probe_register 4096 5 NULL,
         Call.kallsyms_lookup_name "__tracepoint_block_bio_queue",
         Call.tracepoint_probe_unregister 4096 5 NULL] := by
  decide

/-- C7 (amended): nothing is cached on the modern block.  Every call of one
of the four register / unregister functions performs the symbol lookup of
its tracepoint name once, so over any sequence of calls the number of lookups
of a name grows by the number of calls in the sequence that need that
name. -/
theorem lookup_performed_once_per_call (env : Env) (ops : List Modern.Op) (k : Kernel)
    (name : String) :
    (Modern.run env ops k).lookups name
      = k.lookups name + ops.countP (fun o => decide (o.sym_name = name)) := by
  induction ops generalizing k with
  | nil => simp [Modern.run]
  | cons o rest ih =>
    have hrun : Modern.run env (o :: rest) k = Modern.run env rest (o.exec env k) := rfl
    rw [hrun, ih, Modern.exec_lookups, List.countP_cons]
    by_cases hn : o.sym_name = name
    · simp [hn]
      omega
    · simp [hn]

/-! ## Completion correlation -/

end IoTracer
